import Mathlib

/-!
Verification development for the `scrobble_songs.py` batch scrobbler.

The embedding below follows the source file `src/scrobble_songs.py`:

* `scrobble_with_retry` (source lines 49-81): per-song retry loop with
  exponential backoff.  The remote call is abstracted as a function from
  the 0-based attempt number to a `ClientResult` (success, one of the
  three `pylast` exceptions caught by the first handler, or any other
  exception caught by the generic handler).
* the `main` loop (source lines 86-155): counters, consecutive-error
  penalty and halt, inter-item delay, 500-item cooldown, and the final
  writes to the processed-file log and the failed-songs JSON artifact.
* `append_json` (source lines 30-47): read-modify-write append to the
  JSON array artifact, modelled on the artifact's contents (`none` when
  the file does not exist yet).

Sleeps and notices are recorded in an explicit event trace so that
claims about which waits happen (and in what order) are statable.
-/

/-- Outcome of one call to `network.scrobble(...)` as seen by the
`try`/`except` structure of `scrobble_with_retry`: success, one of the
three pylast exceptions caught together by the first handler (each
carrying its error text `str(e)`), or any other exception. -/
inductive ClientResult where
  | success : ClientResult
  | networkError (msg : String) : ClientResult
  | malformedResponseError (msg : String) : ClientResult
  | wsError (msg : String) : ClientResult
  | otherError (msg : String) : ClientResult
deriving DecidableEq

/-- Prefix match on character lists: the Python expression
`code in error_str` restricted to the front of the string (helper for
`occursIn`). -/
def leadMatch : List Char → List Char → Bool
  | [], _ => true
  | _ :: _, [] => false
  | a :: as, b :: bs => a == b && leadMatch as bs

/-- Boolean substring test on character lists: the Python `in` operator
on strings (`code in error_str`). -/
def occursIn (needle : List Char) : List Char → Bool
  | [] => needle.isEmpty
  | b :: bs => leadMatch needle (b :: bs) || occursIn needle bs

/-- ASCII lowercasing of one character: Python's `str.lower()` on the
ASCII range (the markers searched for are all ASCII). -/
def lowerChar (c : Char) : Char :=
  if 65 ≤ c.toNat ∧ c.toNat ≤ 90 then Char.ofNat (c.toNat + 32) else c

/-- Lowercased error text `str(e).lower()`, as a character list. -/
def lowerChars (s : String) : List Char :=
  s.data.map lowerChar

/-- The substring markers tested by `scrobble_with_retry`, in source
order: `['502', '500', '503', 'timeout', 'rate limit']`. -/
def transientMarkers : List String := ["502", "500", "503", "timeout", "rate limit"]

/-- The check `any(code in error_str for code in [...])` with
`error_str = str(e).lower()` (source lines 65-68). -/
def isTransient (msg : String) : Bool :=
  transientMarkers.any (fun code => occursIn code.data (lowerChars msg))

/-- Result of `scrobble_with_retry`, enriched with the backoff sleeps it
performed (in order, in seconds) and the number of client calls it made.
`ok`/`errorMessage` are the returned pair `(success, error_msg)`. -/
structure RetryResult where
  ok : Bool
  errorMessage : Option String
  sleeps : List Nat
  calls : Nat
deriving DecidableEq

/-- Body of `for attempt in range(max_retries)` in `scrobble_with_retry`
(source lines 52-81).  `fuel` is the number of loop iterations still to
run; the entry point `scrobble_with_retry` starts it at `max_retries`
with `attempt = 0`, so `fuel = max_retries - attempt` throughout.  When
the fuel runs out the loop falls through to
`return False, "Max retries exceeded"`. -/
def retryGo (client : Nat → ClientResult) (max_retries : Nat) : Nat → Nat → RetryResult
  | 0, _ => ⟨false, some "Max retries exceeded", [], 0⟩
  | fuel + 1, attempt =>
    match client attempt with
    | .success => ⟨true, none, [], 1⟩
    | .networkError msg | .malformedResponseError msg | .wsError msg =>
      if isTransient msg then
        if attempt < max_retries - 1 then
          let r := retryGo client max_retries fuel (attempt + 1)
          ⟨r.ok, r.errorMessage, min 60 (2 ^ (attempt + 1)) :: r.sleeps, r.calls + 1⟩
        else
          ⟨false, some ("Server error after " ++ toString max_retries ++ " attempts: " ++ msg),
            [], 1⟩
      else
        ⟨false, some ("API error: " ++ msg), [], 1⟩
    | .otherError msg => ⟨false, some ("Unexpected error: " ++ msg), [], 1⟩

/-- Entry point `scrobble_with_retry(network, song, max_retries)`: run
the retry loop from attempt 0.  The `main` loop calls it with the
default `max_retries = 5`. -/
def scrobble_with_retry (client : Nat → ClientResult) (max_retries : Nat) : RetryResult :=
  retryGo client max_retries max_retries 0

/-- Whether a `ClientResult` is one of the three pylast exceptions
caught by the first `except` clause. -/
def isPylastError : ClientResult → Bool
  | .networkError _ | .malformedResponseError _ | .wsError _ => true
  | _ => false

/-- The error text `str(e)` carried by a failing `ClientResult`. -/
def errMsg : ClientResult → String
  | .networkError m | .malformedResponseError m | .wsError m => m
  | .otherError m => m
  | .success => ""

/-- A pylast exception whose text matches one of the transient markers:
exactly the results the retry loop backs off and retries on. -/
def transientResult (c : ClientResult) : Bool :=
  isPylastError c && isTransient (errMsg c)

/-- One song record from the input batch (`artistName`/`trackName`
required, `albumName`/`timestamp` optional dict keys). -/
structure Song where
  artistName : String
  trackName : String
  albumName : Option String
  timestamp : Option Nat
deriving DecidableEq

/-- One entry of `failed_songs`: the merged dict
`{**song, 'error': error_msg}`. -/
structure FailedEvent where
  song : Song
  error : String
deriving DecidableEq

/-- Observable events of one pass of the `main` loop: the client call
for an item, the per-100 progress notice, the per-item error notice,
the consecutive-error penalty sleep, the halt notice, the base
delay-with-jitter sleep, and the 120 s cooldown. -/
inductive RunEvent where
  | attemptItem (i : Nat) : RunEvent
  | progressNotice (n : Nat) : RunEvent
  | errorNotice (i : Nat) (msg : String) : RunEvent
  | penaltySleep (secs : Nat) : RunEvent
  | haltNotice : RunEvent
  | interItemDelay : RunEvent
  | cooldownSleep : RunEvent
deriving DecidableEq

/-- The mutable state of the `main` loop: the three counters, the
accumulated `failed_songs` list, the number of items processed so far
(ghost counter for the bookkeeping claims), whether the loop exited via
the consecutive-error `break`, and the event trace. -/
structure LoopState where
  successCount : Nat
  errorCount : Nat
  consecutiveErrors : Nat
  failedSongs : List FailedEvent
  processed : Nat
  halted : Bool
  events : List RunEvent
deriving DecidableEq

/-- State at loop entry: all counters zero, nothing failed, no events. -/
def initState : LoopState :=
  ⟨0, 0, 0, [], 0, false, []⟩

/-- One item's `if success: ... else: ...` block (source lines 109-126):
on success bump `success_count`, zero `consecutive_errors`, and emit the
per-100 progress notice; on failure bump `error_count` and
`consecutive_errors`, append the failed song with its error message,
emit the error notice, and take the penalty sleep
`min(60, consecutive_errors * 10)` when `consecutive_errors > 3`. -/
def stepItem (startIndex i : Nat) (song : Song) (r : RetryResult) (st : LoopState) : LoopState :=
  if r.ok then
    { st with
      successCount := st.successCount + 1
      consecutiveErrors := 0
      processed := st.processed + 1
      events := st.events ++ [RunEvent.attemptItem i] ++
        (if (startIndex + i + 1) % 100 = 0 then
          [RunEvent.progressNotice (startIndex + i + 1)] else []) }
  else
    { st with
      errorCount := st.errorCount + 1
      consecutiveErrors := st.consecutiveErrors + 1
      failedSongs := st.failedSongs ++ [⟨song, r.errorMessage.getD ""⟩]
      processed := st.processed + 1
      events := st.events ++ [RunEvent.attemptItem i, RunEvent.errorNotice i (r.errorMessage.getD "")] ++
        (if st.consecutiveErrors + 1 > 3 then
          [RunEvent.penaltySleep (min 60 ((st.consecutiveErrors + 1) * 10))] else []) }

/-- The `for i, song in enumerate(songs)` loop of `main` (source lines
106-138).  `client i` scripts the remote call outcomes for item `i`;
each item goes through `scrobble_with_retry` with the default
`max_retries = 5`.  After each item: `break` with a halt notice when
`consecutive_errors > 10`, otherwise the base delay with jitter and,
every 500 items, the 2-minute cooldown. -/
def runLoop (client : Nat → Nat → ClientResult) (startIndex : Nat) :
    List Song → Nat → LoopState → LoopState
  | [], _, st => st
  | song :: rest, i, st =>
    let r := scrobble_with_retry (client i) 5
    let st1 := stepItem startIndex i song r st
    if st1.consecutiveErrors > 10 then
      { st1 with halted := true, events := st1.events ++ [RunEvent.haltNotice] }
    else
      runLoop client startIndex rest (i + 1)
        { st1 with events := st1.events ++ [RunEvent.interItemDelay] ++
            (if (i + 1) % 500 = 0 then [RunEvent.cooldownSleep] else []) }

/-- The helper `append_json(file_path, new_data)` (source lines 30-47), modelled on
the artifact's contents: load the existing JSON array (`[]` when the
file does not exist), extend it with the new entries, and write the
whole array back.  The returned list is the artifact's new contents. -/
def append_json (existing : Option (List FailedEvent)) (new_data : List FailedEvent) :
    List FailedEvent :=
  existing.getD [] ++ new_data

/-- The two persistent log artifacts: the newline-delimited
`scrobbled_files.txt` (as its list of lines) and the
`failed_songs.json` array (`none` while the file does not exist). -/
structure LogFS where
  scrobbledFiles : List String
  failedSongsArtifact : Option (List FailedEvent)
deriving DecidableEq

/-- The body of `main` (source lines 92-155): slice the song list at
`start_index`, run the batch loop, then unconditionally append the file
basename to `scrobbled_files.txt` and, when any song failed, append the
accumulated failures to `failed_songs.json`. -/
def mainRun (client : Nat → Nat → ClientResult) (songsAll : List Song) (startIndex : Nat)
    (fileBasename : String) (fs : LogFS) : LoopState × LogFS :=
  let songs := songsAll.drop startIndex
  let fin := runLoop client startIndex songs 0 initState
  let fs1 := { fs with scrobbledFiles := fs.scrobbledFiles ++ [fileBasename] }
  let fs2 :=
    if fin.failedSongs.isEmpty then fs1
    else { fs1 with failedSongsArtifact := some (append_json fs1.failedSongsArtifact fin.failedSongs) }
  (fin, fs2)

/-! ### Small unfolding lemmas for `stepItem` -/

@[simp]
theorem stepItem_successCount (startIndex i : Nat) (song : Song) (r : RetryResult)
    (st : LoopState) :
    (stepItem startIndex i song r st).successCount =
      if r.ok then st.successCount + 1 else st.successCount := by
  unfold stepItem; split <;> simp [*]

@[simp]
theorem stepItem_errorCount (startIndex i : Nat) (song : Song) (r : RetryResult)
    (st : LoopState) :
    (stepItem startIndex i song r st).errorCount =
      if r.ok then st.errorCount else st.errorCount + 1 := by
  unfold stepItem; split <;> simp [*]

@[simp]
theorem stepItem_consecutiveErrors (startIndex i : Nat) (song : Song) (r : RetryResult)
    (st : LoopState) :
    (stepItem startIndex i song r st).consecutiveErrors =
      if r.ok then 0 else st.consecutiveErrors + 1 := by
  unfold stepItem; split <;> simp [*]

@[simp]
theorem stepItem_processed (startIndex i : Nat) (song : Song) (r : RetryResult)
    (st : LoopState) :
    (stepItem startIndex i song r st).processed = st.processed + 1 := by
  unfold stepItem; split <;> rfl

@[simp]
theorem stepItem_failedSongs (startIndex i : Nat) (song : Song) (r : RetryResult)
    (st : LoopState) :
    (stepItem startIndex i song r st).failedSongs =
      st.failedSongs ++ (if r.ok then [] else [⟨song, r.errorMessage.getD ""⟩]) := by
  unfold stepItem; split <;> simp [*]

@[simp]
theorem stepItem_halted (startIndex i : Nat) (song : Song) (r : RetryResult)
    (st : LoopState) :
    (stepItem startIndex i song r st).halted = st.halted := by
  unfold stepItem; split <;> rfl

theorem stepItem_events_ok (startIndex i : Nat) (song : Song) (r : RetryResult)
    (st : LoopState) (h : r.ok = true) :
    (stepItem startIndex i song r st).events =
      st.events ++ [RunEvent.attemptItem i] ++
        (if (startIndex + i + 1) % 100 = 0 then
          [RunEvent.progressNotice (startIndex + i + 1)] else []) := by
  simp [stepItem, h]

theorem stepItem_events_fail (startIndex i : Nat) (song : Song) (r : RetryResult)
    (st : LoopState) (h : r.ok = false) :
    (stepItem startIndex i song r st).events =
      st.events ++ [RunEvent.attemptItem i, RunEvent.errorNotice i (r.errorMessage.getD "")] ++
        (if st.consecutiveErrors + 1 > 3 then
          [RunEvent.penaltySleep (min 60 ((st.consecutiveErrors + 1) * 10))] else []) := by
  simp [stepItem, h]

/-! ### Claims -/

/-- Claim C9: invoking the retry operation with `max_retries = 0` makes
zero client calls, performs no sleeps, and returns failure with the
message "Max retries exceeded" (the `for` loop body never runs and the
function falls through to its final `return`). -/
theorem retry_zero_attempts (client : Nat → ClientResult) :
    scrobble_with_retry client 0 = ⟨false, some "Max retries exceeded", [], 0⟩ := rfl

/-- Claim C6: `append_json` on a non-existent artifact creates one
containing exactly the given (non-empty) list of events in order;
calling it twice with `[a]` then `[b]` yields `[a, b]`; and on any
existing artifact the old entries are preserved as a prefix, in order,
with the new entries appended after them. -/
theorem append_json_creates_and_appends (a b : FailedEvent) (l : List FailedEvent)
    (hl : l ≠ []) :
    append_json none l = l ∧
    append_json (some (append_json none [a])) [b] = [a, b] ∧
    ∀ old new : List FailedEvent, append_json (some old) new = old ++ new := by
  refine ⟨by simp [append_json], by simp [append_json], fun old new => by simp [append_json]⟩

/-- Witness for C6 at concrete events. -/
theorem append_json_creates_and_appends_witness :
    ([⟨⟨"a", "t", none, none⟩, "e1"⟩] : List FailedEvent) ≠ [] ∧
    (append_json none [⟨⟨"a", "t", none, none⟩, "e1"⟩] = [⟨⟨"a", "t", none, none⟩, "e1"⟩] ∧
     append_json (some (append_json none [⟨⟨"a", "t", none, none⟩, "e2"⟩]))
        [⟨⟨"b", "u", none, none⟩, "e3"⟩] =
        [⟨⟨"a", "t", none, none⟩, "e2"⟩, ⟨⟨"b", "u", none, none⟩, "e3"⟩] ∧
     ∀ old new : List FailedEvent, append_json (some old) new = old ++ new) :=
  ⟨by decide,
   append_json_creates_and_appends ⟨⟨"a", "t", none, none⟩, "e2"⟩ ⟨⟨"b", "u", none, none⟩, "e3"⟩
     [⟨⟨"a", "t", none, none⟩, "e1"⟩] (by decide)⟩

/-- Claim C8: every run reaches the log-flush step regardless of an
early halt: the file basename is appended to the processed-file log
unconditionally, and the accumulated failures are appended to the
failed-events artifact exactly when at least one item failed. -/
theorem run_reaches_log_flush (client : Nat → Nat → ClientResult) (songsAll : List Song)
    (startIndex : Nat) (fileBasename : String) (fs : LogFS) :
    (mainRun client songsAll startIndex fileBasename fs).2.scrobbledFiles =
      fs.scrobbledFiles ++ [fileBasename] ∧
    (mainRun client songsAll startIndex fileBasename fs).2.failedSongsArtifact =
      (if (mainRun client songsAll startIndex fileBasename fs).1.failedSongs.isEmpty then
        fs.failedSongsArtifact
       else some (fs.failedSongsArtifact.getD [] ++
         (mainRun client songsAll startIndex fileBasename fs).1.failedSongs)) := by
  unfold mainRun
  dsimp only
  split <;> simp_all [append_json]

/-- Counterexample to claim C1 as stated: a network error whose text
("connection refused") carries none of the transient markers is *not*
retried — the retry operation returns failure immediately after one
call, with no backoff sleep, labelling it a permanent "API error". -/
theorem network_error_without_marker_not_retried :
    scrobble_with_retry (fun _ => ClientResult.networkError "connection refused") 5 =
      ⟨false, some "API error: connection refused", [], 1⟩ := by decide

/-- With at least one loop iteration left, the retry loop always makes
at least one client call. -/
theorem retryGo_calls_pos (client : Nat → ClientResult) (m fuel attempt : Nat)
    (h : 1 ≤ fuel) :
    1 ≤ (retryGo client m fuel attempt).calls := by
  obtain ⟨f, rfl⟩ : ∃ f, fuel = f + 1 := ⟨fuel - 1, by omega⟩
  cases hc : client attempt <;> simp [retryGo, hc] <;> split <;> try split
  all_goals simp

/-- Claim C1 (amended): a network error, malformed response, or
web-service error whose text contains one of the markers '502', '500',
'503', 'timeout', 'rate limit' (case-insensitively) is treated as
Transient: with attempts remaining the retry operation sleeps
`min(60, 2^1) = 2` seconds and continues with the next attempt (making
at least a second client call) rather than returning failure
immediately. -/
theorem transient_marker_text_retried (client : Nat → ClientResult) (max_retries : Nat)
    (h2 : 2 ≤ max_retries) (ht : transientResult (client 0) = true) :
    scrobble_with_retry client max_retries =
      ⟨(retryGo client max_retries (max_retries - 1) 1).ok,
       (retryGo client max_retries (max_retries - 1) 1).errorMessage,
       min 60 (2 ^ 1) :: (retryGo client max_retries (max_retries - 1) 1).sleeps,
       (retryGo client max_retries (max_retries - 1) 1).calls + 1⟩ ∧
    2 ≤ (scrobble_with_retry client max_retries).calls := by
  obtain ⟨f, rfl⟩ : ∃ f, max_retries = f + 1 := ⟨max_retries - 1, by omega⟩
  have hf : 1 ≤ f := by omega
  have h01 : 0 < f + 1 - 1 := by omega
  have hmain : scrobble_with_retry client (f + 1) =
      ⟨(retryGo client (f + 1) f 1).ok,
       (retryGo client (f + 1) f 1).errorMessage,
       min 60 (2 ^ 1) :: (retryGo client (f + 1) f 1).sleeps,
       (retryGo client (f + 1) f 1).calls + 1⟩ := by
    unfold scrobble_with_retry
    cases hc : client 0 <;>
      simp [transientResult, isPylastError, errMsg, hc] at ht <;>
      simp [retryGo, hc, ht, h01] <;> omega
  refine ⟨by simpa using hmain, ?_⟩
  rw [hmain]
  have := retryGo_calls_pos client (f + 1) f 1 hf
  simp
  omega

/-- Witness for the amended C1 at a concrete transient network error. -/
theorem transient_marker_text_retried_witness :
    2 ≤ 5 ∧
    transientResult (ClientResult.networkError "rate limit exceeded") = true ∧
    (scrobble_with_retry (fun _ => ClientResult.networkError "rate limit exceeded") 5 =
      ⟨(retryGo (fun _ => ClientResult.networkError "rate limit exceeded") 5 4 1).ok,
       (retryGo (fun _ => ClientResult.networkError "rate limit exceeded") 5 4 1).errorMessage,
       min 60 (2 ^ 1) ::
         (retryGo (fun _ => ClientResult.networkError "rate limit exceeded") 5 4 1).sleeps,
       (retryGo (fun _ => ClientResult.networkError "rate limit exceeded") 5 4 1).calls + 1⟩ ∧
     2 ≤ (scrobble_with_retry (fun _ => ClientResult.networkError "rate limit exceeded") 5).calls) :=
  ⟨by decide, by decide,
   transient_marker_text_retried (fun _ => ClientResult.networkError "rate limit exceeded") 5
     (by decide) (by decide)⟩

/-- Claim C5: an error the code classifies as Permanent (a pylast
exception whose text matches no transient marker) makes the retry
operation return failure immediately after exactly one call with an
"API error" message and no backoff sleep; an uncategorized exception
likewise fails after exactly one call with the generic
"Unexpected error" message. -/
theorem permanent_and_unexpected_fail_immediately (client : Nat → ClientResult)
    (max_retries : Nat) (h1 : 1 ≤ max_retries) :
    (isPylastError (client 0) = true → isTransient (errMsg (client 0)) = false →
      scrobble_with_retry client max_retries =
        ⟨false, some ("API error: " ++ errMsg (client 0)), [], 1⟩) ∧
    (∀ msg, client 0 = ClientResult.otherError msg →
      scrobble_with_retry client max_retries =
        ⟨false, some ("Unexpected error: " ++ msg), [], 1⟩) := by
  obtain ⟨f, rfl⟩ : ∃ f, max_retries = f + 1 := ⟨max_retries - 1, by omega⟩
  constructor
  · intro hp ht
    unfold scrobble_with_retry
    cases hc : client 0 <;> simp [isPylastError, hc] at hp <;>
      simp [errMsg, hc] at ht <;> simp [retryGo, hc, ht, errMsg]
  · intro msg hm
    unfold scrobble_with_retry
    simp [retryGo, hm]

/-- Witness for C5: a permanently failing client and an uncategorized
exception, each at `max_retries = 5`. -/
theorem permanent_and_unexpected_fail_immediately_witness :
    (1 ≤ 5 ∧
     ((isPylastError (ClientResult.wsError "song rejected") = true →
        isTransient (errMsg (ClientResult.wsError "song rejected")) = false →
        scrobble_with_retry (fun _ => ClientResult.wsError "song rejected") 5 =
          ⟨false, some ("API error: " ++ errMsg (ClientResult.wsError "song rejected")), [], 1⟩) ∧
      (∀ msg, (ClientResult.wsError "song rejected") = ClientResult.otherError msg →
        scrobble_with_retry (fun _ => ClientResult.wsError "song rejected") 5 =
          ⟨false, some ("Unexpected error: " ++ msg), [], 1⟩))) ∧
    (1 ≤ 5 ∧
     ((isPylastError (ClientResult.otherError "boom") = true →
        isTransient (errMsg (ClientResult.otherError "boom")) = false →
        scrobble_with_retry (fun _ => ClientResult.otherError "boom") 5 =
          ⟨false, some ("API error: " ++ errMsg (ClientResult.otherError "boom")), [], 1⟩) ∧
      (∀ msg, (ClientResult.otherError "boom") = ClientResult.otherError msg →
        scrobble_with_retry (fun _ => ClientResult.otherError "boom") 5 =
          ⟨false, some ("Unexpected error: " ++ msg), [], 1⟩))) :=
  ⟨⟨by decide,
    permanent_and_unexpected_fail_immediately (fun _ => ClientResult.wsError "song rejected") 5
      (by decide)⟩,
   ⟨by decide,
    permanent_and_unexpected_fail_immediately (fun _ => ClientResult.otherError "boom") 5
      (by decide)⟩⟩

/-- Peeling one backoff sleep off the front of the backoff schedule. -/
theorem sleepSchedule_cons (attempt k : Nat) :
    (List.range (k + 1)).map (fun j => min 60 (2 ^ (attempt + j + 1))) =
      min 60 (2 ^ (attempt + 1)) ::
        (List.range k).map (fun j => min 60 (2 ^ (attempt + 1 + j + 1))) := by
  rw [List.range_succ_eq_map, List.map_cons, List.map_map]
  congr 1
  refine List.map_congr_left fun j _ => ?_
  have e : attempt + (j + 1) + 1 = attempt + 1 + j + 1 := by omega
  simp [Function.comp, e]

/-- If the client yields transient-marker errors for the next `k`
attempts and then succeeds (with at least `k + 1` loop iterations
left), the retry loop returns success after `k` backoff sleeps of
`min(60, 2^(attemptNumber))` seconds and `k + 1` calls. -/
theorem retryGo_transient_then_success (client : Nat → ClientResult) (m : Nat) :
    ∀ (k attempt : Nat), attempt + k < m →
      (∀ j, j < k → transientResult (client (attempt + j)) = true) →
      client (attempt + k) = ClientResult.success →
      retryGo client m (m - attempt) attempt =
        ⟨true, none, (List.range k).map (fun j => min 60 (2 ^ (attempt + j + 1))), k + 1⟩ := by
  intro k
  induction k with
  | zero =>
    intro attempt hm _ hs
    obtain ⟨f, hf⟩ : ∃ f, m - attempt = f + 1 := ⟨m - attempt - 1, by omega⟩
    rw [Nat.add_zero] at hs
    rw [hf]
    simp [retryGo, hs]
  | succ k ih =>
    intro attempt hm htr hs
    obtain ⟨f, hf⟩ : ∃ f, m - attempt = f + 1 := ⟨m - attempt - 1, by omega⟩
    have h0 := htr 0 (by omega)
    rw [Nat.add_zero] at h0
    have hlt : attempt < m - 1 := by omega
    have hrec : retryGo client m f (attempt + 1) =
        ⟨true, none, (List.range k).map (fun j => min 60 (2 ^ (attempt + 1 + j + 1))), k + 1⟩ := by
      have h1 : ∀ j, j < k → transientResult (client (attempt + 1 + j)) = true := by
        intro j hj
        have e : attempt + 1 + j = attempt + (j + 1) := by omega
        rw [e]
        exact htr (j + 1) (by omega)
      have h2 : client (attempt + 1 + k) = ClientResult.success := by
        have e : attempt + 1 + k = attempt + (k + 1) := by omega
        rw [e]; exact hs
      have := ih (attempt + 1) (by omega) h1 h2
      rwa [show m - (attempt + 1) = f by omega] at this
    rw [hf, sleepSchedule_cons]
    cases hc : client attempt <;>
      simp [transientResult, isPylastError, errMsg, hc] at h0 <;>
      simp [retryGo, hc, h0, hlt, hrec]

/-- If the client yields transient-marker errors for all remaining
attempts, the retry loop exhausts them: it fails with the
"Server error after N attempts" message carrying the last error text,
after one backoff sleep per non-final attempt. -/
theorem retryGo_all_transient (client : Nat → ClientResult) (m : Nat) :
    ∀ (fuel attempt : Nat), attempt + fuel = m → 1 ≤ fuel →
      (∀ j, j < fuel → transientResult (client (attempt + j)) = true) →
      retryGo client m fuel attempt =
        ⟨false,
         some ("Server error after " ++ toString m ++ " attempts: " ++ errMsg (client (m - 1))),
         (List.range (fuel - 1)).map (fun j => min 60 (2 ^ (attempt + j + 1))), fuel⟩ := by
  intro fuel
  induction fuel with
  | zero => intro attempt _ h1 _; omega
  | succ f ih =>
    intro attempt hm _ htr
    have h0 := htr 0 (by omega)
    rw [Nat.add_zero] at h0
    rcases Nat.eq_zero_or_pos f with hf | hf
    · subst hf
      have ha : attempt = m - 1 := by omega
      have hnlt : ¬ attempt < m - 1 := by omega
      cases hc : client attempt <;>
        simp [transientResult, isPylastError, errMsg, hc] at h0 <;>
        · simp [retryGo, hc, h0, hnlt]
          rw [← ha, hc]
          simp [errMsg]
    · have hlt : attempt < m - 1 := by omega
      have hrec : retryGo client m f (attempt + 1) =
          ⟨false,
           some ("Server error after " ++ toString m ++ " attempts: " ++ errMsg (client (m - 1))),
           (List.range (f - 1)).map (fun j => min 60 (2 ^ (attempt + 1 + j + 1))), f⟩ := by
        have h1 : ∀ j, j < f → transientResult (client (attempt + 1 + j)) = true := by
          intro j hj
          have e : attempt + 1 + j = attempt + (j + 1) := by omega
          rw [e]
          exact htr (j + 1) (by omega)
        exact ih (attempt + 1) (by omega) hf h1
      rw [show f + 1 - 1 = (f - 1) + 1 by omega, sleepSchedule_cons]
      cases hc : client attempt <;>
        simp [transientResult, isPylastError, errMsg, hc] at h0 <;>
        simp [retryGo, hc, h0, hlt, hrec]

/-- Claim C2: for `max_retries ≥ 1` and a scripted client failing with
transient-marker errors on the first `k` attempts (`k < max_retries`)
and then succeeding, the retry operation returns success after exactly
`k` backoff sleeps of `min(60, 2^attemptNumber)` seconds
(`attemptNumber` 1-based: 2, 4, 8, 16, 32, capped at 60); and a client
whose every attempt fails with a transient-marker error exhausts all
`max_retries` attempts and fails with a message stating the number of
attempts and the last error. -/
theorem retry_backoff_schedule (client : Nat → ClientResult) (max_retries k : Nat)
    (hmr : 1 ≤ max_retries) (hk : k < max_retries)
    (htr : ∀ j, j < k → transientResult (client j) = true)
    (hs : client k = ClientResult.success) :
    scrobble_with_retry client max_retries =
      ⟨true, none, (List.range k).map (fun j => min 60 (2 ^ (j + 1))), k + 1⟩ ∧
    ∀ clientB : Nat → ClientResult,
      (∀ j, j < max_retries → transientResult (clientB j) = true) →
      scrobble_with_retry clientB max_retries =
        ⟨false,
         some ("Server error after " ++ toString max_retries ++ " attempts: " ++
           errMsg (clientB (max_retries - 1))),
         (List.range (max_retries - 1)).map (fun j => min 60 (2 ^ (j + 1))), max_retries⟩ := by
  constructor
  · have h := retryGo_transient_then_success client max_retries k 0 (by omega)
      (fun j hj => by simpa using htr j hj) (by simpa using hs)
    rw [Nat.sub_zero] at h
    simpa using h
  · intro clientB htrB
    have h := retryGo_all_transient clientB max_retries max_retries 0 (by omega) (by omega)
      (fun j hj => by simpa using htrB j hj)
    simpa using h

/-- Witness for C2: two transient 502 failures then success, at
`max_retries = 5`: sleeps 2 s and 4 s, three calls. -/
theorem retry_backoff_schedule_witness :
    1 ≤ 5 ∧ 2 < 5 ∧
    (∀ j, j < 2 → transientResult
      ((fun i => if i < 2 then ClientResult.wsError "502 Bad Gateway" else .success) j) = true) ∧
    ((fun i => if i < 2 then ClientResult.wsError "502 Bad Gateway" else .success) 2 =
      ClientResult.success) ∧
    (scrobble_with_retry
        (fun i => if i < 2 then ClientResult.wsError "502 Bad Gateway" else .success) 5 =
      ⟨true, none, (List.range 2).map (fun j => min 60 (2 ^ (j + 1))), 2 + 1⟩ ∧
     ∀ clientB : Nat → ClientResult,
      (∀ j, j < 5 → transientResult (clientB j) = true) →
      scrobble_with_retry clientB 5 =
        ⟨false,
         some ("Server error after " ++ toString 5 ++ " attempts: " ++ errMsg (clientB (5 - 1))),
         (List.range (5 - 1)).map (fun j => min 60 (2 ^ (j + 1))), 5⟩) :=
  ⟨by decide, by decide, by decide, by decide,
   retry_backoff_schedule
     (fun i => if i < 2 then ClientResult.wsError "502 Bad Gateway" else .success) 5 2
     (by decide) (by decide) (by decide) (by decide)⟩

/-- Claim C4: at every point of a run, `successCount + errorCount`
equals the number of items actually processed: each processed item
increments exactly one of the two counters (and `processed` by one), so
items skipped by an early halt are counted in neither. -/
theorem counts_partition_processed (client : Nat → Nat → ClientResult) (startIndex : Nat)
    (songs : List Song) (i : Nat) (st : LoopState)
    (h : st.successCount + st.errorCount = st.processed) :
    (runLoop client startIndex songs i st).successCount +
        (runLoop client startIndex songs i st).errorCount =
      (runLoop client startIndex songs i st).processed ∧
    ∀ (i2 : Nat) (song : Song) (r : RetryResult) (st2 : LoopState),
      (stepItem startIndex i2 song r st2).processed = st2.processed + 1 ∧
      (stepItem startIndex i2 song r st2).successCount =
        (if r.ok then st2.successCount + 1 else st2.successCount) ∧
      (stepItem startIndex i2 song r st2).errorCount =
        (if r.ok then st2.errorCount else st2.errorCount + 1) := by
  refine ⟨?_, fun i2 song r st2 => ⟨stepItem_processed _ _ _ _ _,
    stepItem_successCount _ _ _ _ _, stepItem_errorCount _ _ _ _ _⟩⟩
  induction songs generalizing i st with
  | nil => simpa [runLoop] using h
  | cons song rest ih =>
    rw [runLoop]
    split
    · simp only [stepItem_successCount, stepItem_errorCount, stepItem_processed]
      split <;> omega
    · apply ih
      simp only [stepItem_successCount, stepItem_errorCount, stepItem_processed]
      split <;> omega

/-- Witness for C4 on a concrete two-item batch. -/
theorem counts_partition_processed_witness :
    (0 : Nat) + 0 = (0 : Nat) ∧
    ((runLoop (fun _ _ => ClientResult.otherError "boom") 0
        [⟨"a", "t", none, none⟩, ⟨"b", "u", none, none⟩] 0 initState).successCount +
      (runLoop (fun _ _ => ClientResult.otherError "boom") 0
        [⟨"a", "t", none, none⟩, ⟨"b", "u", none, none⟩] 0 initState).errorCount =
      (runLoop (fun _ _ => ClientResult.otherError "boom") 0
        [⟨"a", "t", none, none⟩, ⟨"b", "u", none, none⟩] 0 initState).processed ∧
     ∀ (i2 : Nat) (song : Song) (r : RetryResult) (st2 : LoopState),
      (stepItem 0 i2 song r st2).processed = st2.processed + 1 ∧
      (stepItem 0 i2 song r st2).successCount =
        (if r.ok then st2.successCount + 1 else st2.successCount) ∧
      (stepItem 0 i2 song r st2).errorCount =
        (if r.ok then st2.errorCount else st2.errorCount + 1)) :=
  ⟨rfl,
   counts_partition_processed (fun _ _ => ClientResult.otherError "boom") 0
     [⟨"a", "t", none, none⟩, ⟨"b", "u", none, none⟩] 0 initState rfl⟩

/-- Claim C10: during a run, `errorCount` always equals the length of
the accumulated failed-events list; that list only ever grows by
appending (the entries already present stay a prefix, in order), and a
processed item appends exactly one entry — the original song with the
attached error string — when and only when it failed. -/
theorem errorCount_matches_failed_list (client : Nat → Nat → ClientResult) (startIndex : Nat)
    (songs : List Song) (i : Nat) (st : LoopState)
    (h : st.errorCount = st.failedSongs.length) :
    (runLoop client startIndex songs i st).errorCount =
      (runLoop client startIndex songs i st).failedSongs.length ∧
    st.failedSongs <+: (runLoop client startIndex songs i st).failedSongs ∧
    ∀ (i2 : Nat) (song : Song) (r : RetryResult) (st2 : LoopState),
      (stepItem startIndex i2 song r st2).failedSongs =
        st2.failedSongs ++ (if r.ok then [] else [⟨song, r.errorMessage.getD ""⟩]) := by
  refine ⟨?_, ?_, fun i2 song r st2 => stepItem_failedSongs _ _ _ _ _⟩
  · induction songs generalizing i st with
    | nil => simpa [runLoop] using h
    | cons song rest ih =>
      rw [runLoop]
      split
      · simp only [stepItem_errorCount, stepItem_failedSongs]
        split <;> simp <;> omega
      · apply ih
        simp only [stepItem_errorCount, stepItem_failedSongs]
        split <;> simp <;> omega
  · clear h
    induction songs generalizing i st with
    | nil => simp [runLoop]
    | cons song rest ih =>
      rw [runLoop]
      split
      · simp only [stepItem_failedSongs]
        exact List.prefix_append _ _
      · refine List.IsPrefix.trans ?_ (ih (i + 1) _)
        simp only [stepItem_failedSongs]
        exact List.prefix_append _ _

/-- Witness for C10 on a concrete two-item batch. -/
theorem errorCount_matches_failed_list_witness :
    (0 : Nat) = ([] : List FailedEvent).length ∧
    ((runLoop (fun _ _ => ClientResult.otherError "boom") 0
        [⟨"a", "t", none, none⟩, ⟨"b", "u", none, none⟩] 0 initState).errorCount =
      (runLoop (fun _ _ => ClientResult.otherError "boom") 0
        [⟨"a", "t", none, none⟩, ⟨"b", "u", none, none⟩] 0 initState).failedSongs.length ∧
     ([] : List FailedEvent) <+:
      (runLoop (fun _ _ => ClientResult.otherError "boom") 0
        [⟨"a", "t", none, none⟩, ⟨"b", "u", none, none⟩] 0 initState).failedSongs ∧
     ∀ (i2 : Nat) (song : Song) (r : RetryResult) (st2 : LoopState),
      (stepItem 0 i2 song r st2).failedSongs =
        st2.failedSongs ++ (if r.ok then [] else [⟨song, r.errorMessage.getD ""⟩])) :=
  ⟨rfl,
   errorCount_matches_failed_list (fun _ _ => ClientResult.otherError "boom") 0
     [⟨"a", "t", none, none⟩, ⟨"b", "u", none, none⟩] 0 initState rfl⟩

/-- Claim C7: a successful item resets the consecutive-error counter to
0 whatever (≤ 10) count preceded it, so a single failure right after
that success leaves the counter at 1 and the two-item run triggers
neither a penalty sleep nor the halt. -/
theorem success_resets_consecutive_counter (client : Nat → Nat → ClientResult)
    (startIndex i : Nat) (s1 s2 : Song) (st : LoopState)
    (hce : st.consecutiveErrors ≤ 10)
    (h1 : (scrobble_with_retry (client i) 5).ok = true)
    (h2 : (scrobble_with_retry (client (i + 1)) 5).ok = false) :
    (stepItem startIndex i s1 (scrobble_with_retry (client i) 5) st).consecutiveErrors = 0 ∧
    (runLoop client startIndex [s1, s2] i st).consecutiveErrors = 1 ∧
    (runLoop client startIndex [s1, s2] i st).halted = st.halted ∧
    ∃ new, (runLoop client startIndex [s1, s2] i st).events = st.events ++ new ∧
      (∀ s, RunEvent.penaltySleep s ∉ new) ∧ RunEvent.haltNotice ∉ new := by
  have hA : (stepItem startIndex i s1 (scrobble_with_retry (client i) 5) st).consecutiveErrors
      = 0 := by
    simp [stepItem_consecutiveErrors, h1]
  refine ⟨hA, ?_, ?_, ?_⟩
  · simp [runLoop, stepItem_consecutiveErrors, h1, h2]
  · simp [runLoop, stepItem_consecutiveErrors, stepItem_halted, h1, h2]
  · refine ⟨[RunEvent.attemptItem i] ++
      (if (startIndex + i + 1) % 100 = 0 then
        [RunEvent.progressNotice (startIndex + i + 1)] else []) ++
      [RunEvent.interItemDelay] ++
      (if (i + 1) % 500 = 0 then [RunEvent.cooldownSleep] else []) ++
      [RunEvent.attemptItem (i + 1),
       RunEvent.errorNotice (i + 1) ((scrobble_with_retry (client (i + 1)) 5).errorMessage.getD "")] ++
      [RunEvent.interItemDelay] ++
      (if (i + 1 + 1) % 500 = 0 then [RunEvent.cooldownSleep] else []), ?_, ?_, ?_⟩
    · simp [runLoop, stepItem_consecutiveErrors,
        stepItem_events_ok _ _ _ _ _ h1, stepItem_events_fail _ _ _ _ _ h2, h1, h2]
    · intro s
      split_ifs <;> simp
    · split_ifs <;> simp

/-- Witness for C7: a success then a permanent failure, entered with 10
consecutive errors already on the counter. -/
theorem success_resets_consecutive_counter_witness :
    (10 : Nat) ≤ 10 ∧
    (scrobble_with_retry
      ((fun j _ => if j = 0 then ClientResult.success else ClientResult.otherError "boom") 0) 5).ok
      = true ∧
    (scrobble_with_retry
      ((fun j _ => if j = 0 then ClientResult.success else ClientResult.otherError "boom") (0 + 1)) 5).ok
      = false ∧
    ((stepItem 0 0 ⟨"a", "t", none, none⟩
        (scrobble_with_retry
          ((fun j _ => if j = 0 then ClientResult.success else ClientResult.otherError "boom") 0) 5)
        ⟨0, 0, 10, [], 0, false, []⟩).consecutiveErrors = 0 ∧
     (runLoop (fun j _ => if j = 0 then ClientResult.success else ClientResult.otherError "boom") 0
        [⟨"a", "t", none, none⟩, ⟨"b", "u", none, none⟩] 0
        ⟨0, 0, 10, [], 0, false, []⟩).consecutiveErrors = 1 ∧
     (runLoop (fun j _ => if j = 0 then ClientResult.success else ClientResult.otherError "boom") 0
        [⟨"a", "t", none, none⟩, ⟨"b", "u", none, none⟩] 0
        ⟨0, 0, 10, [], 0, false, []⟩).halted = (⟨0, 0, 10, [], 0, false, []⟩ : LoopState).halted ∧
     ∃ new, (runLoop (fun j _ => if j = 0 then ClientResult.success else ClientResult.otherError "boom") 0
        [⟨"a", "t", none, none⟩, ⟨"b", "u", none, none⟩] 0
        ⟨0, 0, 10, [], 0, false, []⟩).events = (⟨0, 0, 10, [], 0, false, []⟩ : LoopState).events ++ new ∧
      (∀ s, RunEvent.penaltySleep s ∉ new) ∧ RunEvent.haltNotice ∉ new) :=
  ⟨by decide, by decide, by decide,
   success_resets_consecutive_counter
     (fun j _ => if j = 0 then ClientResult.success else ClientResult.otherError "boom") 0 0
     ⟨"a", "t", none, none⟩ ⟨"b", "u", none, none⟩ ⟨0, 0, 10, [], 0, false, []⟩
     (by decide) (by decide) (by decide)⟩

/-- Membership in a singleton list guarded by a condition. -/
@[simp]
theorem mem_ite_singleton {α : Type _} (c : Prop) [Decidable c] (a x : α) :
    (x ∈ if c then [a] else []) ↔ c ∧ x = a := by
  split <;> simp_all

/-- If every attempted item fails, the batch loop runs exactly
`11 - consecutiveErrors` more items, halts, and the trace ends with the
halting item's error notice, its 60 s penalty sleep and the halt notice
— nothing (in particular no inter-item delay or cooldown) after it. -/
theorem runLoop_allFail (client : Nat → Nat → ClientResult) (startIndex : Nat)
    (hfail : ∀ i, (scrobble_with_retry (client i) 5).ok = false) :
    ∀ (songs : List Song) (i : Nat) (st : LoopState),
      st.consecutiveErrors ≤ 10 →
      11 ≤ st.consecutiveErrors + songs.length →
      ∃ mid msg,
        (runLoop client startIndex songs i st).errorCount
            = st.errorCount + (11 - st.consecutiveErrors) ∧
        (runLoop client startIndex songs i st).processed
            = st.processed + (11 - st.consecutiveErrors) ∧
        (runLoop client startIndex songs i st).halted = true ∧
        (runLoop client startIndex songs i st).events
            = st.events ++ mid ++
              [RunEvent.attemptItem (i + (10 - st.consecutiveErrors)),
               RunEvent.errorNotice (i + (10 - st.consecutiveErrors)) msg,
               RunEvent.penaltySleep 60, RunEvent.haltNotice] ∧
        ∀ j, RunEvent.attemptItem j ∈ mid → i ≤ j ∧ j < i + (10 - st.consecutiveErrors) := by
  intro songs
  induction songs with
  | nil =>
    intro i st _ h11
    simp only [List.length_nil] at h11
    omega
  | cons song rest ih =>
    intro i st h10 h11
    simp only [List.length_cons] at h11
    rw [runLoop]
    rcases Nat.lt_or_ge st.consecutiveErrors 10 with hce | hce
    · have hcond : ¬ (stepItem startIndex i song (scrobble_with_retry (client i) 5) st).consecutiveErrors > 10 := by
        rw [stepItem_consecutiveErrors]
        simp only [hfail i]
        simp
        omega
      rw [if_neg hcond]
      obtain ⟨mid, msg, he, hp, hh, hev, hmem⟩ :=
        ih (i + 1)
          { stepItem startIndex i song (scrobble_with_retry (client i) 5) st with
            events := (stepItem startIndex i song (scrobble_with_retry (client i) 5) st).events ++
              [RunEvent.interItemDelay] ++
              (if (i + 1) % 500 = 0 then [RunEvent.cooldownSleep] else []) }
          (by simp [stepItem_consecutiveErrors, hfail i]; omega)
          (by simp [stepItem_consecutiveErrors, hfail i]; omega)
      simp only [stepItem_successCount, stepItem_errorCount, stepItem_consecutiveErrors,
        stepItem_processed, stepItem_failedSongs, stepItem_halted,
        stepItem_events_fail _ _ _ _ _ (hfail i), hfail i, Bool.false_eq_true, if_false]
        at he hp hh hev hmem ⊢
      refine ⟨[RunEvent.attemptItem i,
          RunEvent.errorNotice i ((scrobble_with_retry (client i) 5).errorMessage.getD "")] ++
        (if st.consecutiveErrors + 1 > 3 then
          [RunEvent.penaltySleep (min 60 ((st.consecutiveErrors + 1) * 10))] else []) ++
        [RunEvent.interItemDelay] ++
        (if (i + 1) % 500 = 0 then [RunEvent.cooldownSleep] else []) ++ mid, msg,
        ?_, ?_, hh, ?_, ?_⟩
      · rw [he]; omega
      · rw [hp]; omega
      · rw [hev]
        have e2 : i + 1 + (10 - (st.consecutiveErrors + 1)) = i + (10 - st.consecutiveErrors) := by
          omega
        rw [e2]
        simp [List.append_assoc]
      · intro j hj
        simp only [List.mem_append, List.mem_cons, List.not_mem_nil, or_false,
          mem_ite_singleton] at hj
        simp only [RunEvent.attemptItem.injEq, reduceCtorEq, or_false, false_or,
          and_false] at hj
        rcases hj with hj | hj
        · subst hj; omega
        · have := hmem j hj
          omega
    · have hce10 : st.consecutiveErrors = 10 := by omega
      have hcond : (stepItem startIndex i song (scrobble_with_retry (client i) 5) st).consecutiveErrors > 10 := by
        rw [stepItem_consecutiveErrors]
        simp [hfail i, hce10]
      rw [if_pos hcond]
      refine ⟨[], (scrobble_with_retry (client i) 5).errorMessage.getD "", ?_, ?_, ?_, ?_, ?_⟩
      · simp [stepItem_errorCount, hfail i, hce10]
      · simp [stepItem_processed, hce10]
      · simp
      · simp [stepItem_events_fail _ _ _ _ _ (hfail i), hce10]
      · intro j hj
        simp at hj

/-- Claim C3: in a 20-item batch where every attempted item fails
permanently, the runner halts after the 11th failure: `errorCount = 11`,
exactly 11 items are processed, items 12-20 (0-based indices ≥ 11) are
never attempted, and the halting item is followed only by its penalty
sleep and the halt notice — no inter-item delay or cooldown. -/
theorem batch_halts_after_eleventh_failure (client : Nat → Nat → ClientResult)
    (songs : List Song) (hlen : songs.length = 20)
    (hfail : ∀ i, (scrobble_with_retry (client i) 5).ok = false) :
    (runLoop client 0 songs 0 initState).errorCount = 11 ∧
    (runLoop client 0 songs 0 initState).processed = 11 ∧
    (runLoop client 0 songs 0 initState).halted = true ∧
    (∀ j, RunEvent.attemptItem j ∈ (runLoop client 0 songs 0 initState).events → j < 11) ∧
    ∃ pre msg, (runLoop client 0 songs 0 initState).events =
      pre ++ [RunEvent.attemptItem 10, RunEvent.errorNotice 10 msg,
        RunEvent.penaltySleep 60, RunEvent.haltNotice] := by
  obtain ⟨mid, msg, he, hp, hh, hev, hmem⟩ :=
    runLoop_allFail client 0 hfail songs 0 initState (by simp [initState]) (by simp [initState, hlen])
  simp only [initState] at he hp hh hev hmem ⊢
  norm_num at he hp hev hmem
  refine ⟨he, hp, hh, ?_, ⟨mid, msg, hev⟩⟩
  intro j hj
  rw [hev] at hj
  rcases List.mem_append.1 hj with hj | hj
  · have := hmem j hj
    omega
  · simp only [List.mem_cons, List.not_mem_nil, or_false, RunEvent.attemptItem.injEq,
      reduceCtorEq, false_or] at hj
    omega

/-- Witness for C3: twenty identical songs, a client that always raises
an uncategorized exception. -/
theorem batch_halts_after_eleventh_failure_witness :
    (List.replicate 20 (⟨"a", "t", none, none⟩ : Song)).length = 20 ∧
    (∀ i : Nat, (scrobble_with_retry
      ((fun (_ : Nat) (_ : Nat) => ClientResult.otherError "boom") i) 5).ok = false) ∧
    ((runLoop (fun _ _ => ClientResult.otherError "boom") 0
        (List.replicate 20 ⟨"a", "t", none, none⟩) 0 initState).errorCount = 11 ∧
     (runLoop (fun _ _ => ClientResult.otherError "boom") 0
        (List.replicate 20 ⟨"a", "t", none, none⟩) 0 initState).processed = 11 ∧
     (runLoop (fun _ _ => ClientResult.otherError "boom") 0
        (List.replicate 20 ⟨"a", "t", none, none⟩) 0 initState).halted = true ∧
     (∀ j, RunEvent.attemptItem j ∈ (runLoop (fun _ _ => ClientResult.otherError "boom") 0
        (List.replicate 20 ⟨"a", "t", none, none⟩) 0 initState).events → j < 11) ∧
     ∃ pre msg, (runLoop (fun _ _ => ClientResult.otherError "boom") 0
        (List.replicate 20 ⟨"a", "t", none, none⟩) 0 initState).events =
      pre ++ [RunEvent.attemptItem 10, RunEvent.errorNotice 10 msg,
        RunEvent.penaltySleep 60, RunEvent.haltNotice]) :=
  ⟨by decide, fun _ => rfl,
   batch_halts_after_eleventh_failure (fun _ _ => ClientResult.otherError "boom")
     (List.replicate 20 ⟨"a", "t", none, none⟩) (by decide) (fun _ => rfl)⟩

/-- Witness for C8 on a concrete one-item run with one failure. -/
theorem run_reaches_log_flush_witness :
    (mainRun (fun _ _ => ClientResult.otherError "boom") [⟨"a", "t", none, none⟩] 0
        "batch1.json" ⟨[], none⟩).2.scrobbledFiles =
      ([] : List String) ++ ["batch1.json"] ∧
    (mainRun (fun _ _ => ClientResult.otherError "boom") [⟨"a", "t", none, none⟩] 0
        "batch1.json" ⟨[], none⟩).2.failedSongsArtifact =
      (if (mainRun (fun _ _ => ClientResult.otherError "boom") [⟨"a", "t", none, none⟩] 0
            "batch1.json" ⟨[], none⟩).1.failedSongs.isEmpty then
        (none : Option (List FailedEvent))
       else some ((none : Option (List FailedEvent)).getD [] ++
         (mainRun (fun _ _ => ClientResult.otherError "boom") [⟨"a", "t", none, none⟩] 0
            "batch1.json" ⟨[], none⟩).1.failedSongs)) :=
  run_reaches_log_flush (fun _ _ => ClientResult.otherError "boom") [⟨"a", "t", none, none⟩] 0
    "batch1.json" ⟨[], none⟩

/-- Witness for C9 at a concrete client. -/
theorem retry_zero_attempts_witness :
    scrobble_with_retry (fun _ => ClientResult.wsError "502") 0 =
      ⟨false, some "Max retries exceeded", [], 0⟩ :=
  retry_zero_attempts (fun _ => ClientResult.wsError "502")
